import Mathlib

/-! Shallow embedding of the DCA stock-trading bot: `src/stock_trader.py`
(class StockTrader and the trading loop `execute_trading`) and `src/db.py`
(sqlite persistence helpers).  Python floats are modelled as rationals.  A
Python exception (ZeroDivisionError at a zero denominator, TypeError at a
call-arity mismatch or at subscripting None) is modelled by an explicit
error value carried in the result together with the object state at the
moment the exception is raised, because attribute assignments performed
before the raise survive it on the mutated object. -/

/-- constant.PositionStatus member names, as stored in `position_status`. -/
inductive PositionStatus
  | TRADABLE
  | PENDING_BUY
  | PENDING_SELL
  deriving DecidableEq, Repr

/-- The CONFIG keys read by stock_trader.py. -/
structure Config where
  SELL_ONLY_SYMBOLS : List String
  MIN_PROFIT : ℚ
  MAX_BUY_TIMES : ℕ
  MAX_LOSS_PERCENTAGE : ℚ
  DCA_PERCENTAGE : ℚ
  BUY_PERCENTAGE : ℚ
  INVESTED_XCH : ℚ
  deriving DecidableEq, Repr

/-- The mutable attributes of a StockTrader object (timestamps as abstract
tick counters). -/
structure Position where
  stock : String
  volume : ℚ
  buy_count : ℕ
  last_buy_price : ℚ
  total_cost : ℚ
  avg_price : ℚ
  current_price : ℚ
  profit : ℚ
  position_status : PositionStatus
  last_updated : ℕ
  wallet_id : ℕ
  deriving DecidableEq, Repr

/-- StockTrader.__init__ for a symbol with no stored record: every numeric
attribute starts at zero and the status starts TRADABLE. -/
def freshPosition (stock : String) (now wallet : ℕ) : Position :=
  { stock := stock, volume := 0, buy_count := 0, last_buy_price := 0,
    total_cost := 0, avg_price := 0, current_price := 0, profit := 0,
    position_status := PositionStatus.TRADABLE, last_updated := now,
    wallet_id := wallet }

/-- The Python exceptions the embedded code can raise. -/
inductive PyErr
  | typeError
  | zeroDivisionError
  deriving DecidableEq, Repr

/-- A positional argument of a Python call (only strings and numbers are
passed to record_trade). -/
inductive PyVal
  | str (s : String)
  | num (q : ℚ)
  deriving DecidableEq, Repr

/-- A row of the `trades` table as declared in src/db.py: columns stock,
action, price, volume, profit (id and timestamp are implicit in the list
position). -/
structure TradeRow where
  stock : String
  action : String
  price : ℚ
  volume : ℚ
  profit : ℚ
  deriving DecidableEq, Repr

/-- db.record_trade binds exactly five positional parameters
(stock, action, price, volume, profit) and inserts one row into `trades`.
The Python argument list is taken explicitly so that a call whose argument
list does not match five positionals raises TypeError, as CPython does. -/
def record_trade (trades : List TradeRow) (args : List PyVal) :
    Except PyErr (List TradeRow) :=
  match args with
  | [PyVal.str stock, PyVal.str action, PyVal.num price,
     PyVal.num volume, PyVal.num profit] =>
      Except.ok (trades ++ [{ stock := stock, action := action, price := price,
                              volume := volume, profit := profit }])
  | _ => Except.error PyErr.typeError

/-- Modelled from the spec: the row shape returned by `db.get_last_trade`,
which stock_trader.py imports but src/db.py does not define.  Spec section 3
gives the trade-record fields in order (symbol, action, fill price, filled
quantity, funding-currency amount, realized profit ratio, timestamp) and
section 6 adds an autoincrement identity column, so in the tuple the filled
quantity sits at index 4 and the funding-currency amount at index 5 — the
two indices handle_price_drop reads. -/
structure TradeRecord where
  stock : String
  action : String
  price : ℚ
  volume : ℚ
  amount : ℚ
  profit : ℚ
  deriving DecidableEq, Repr

/-- Which transfer address a send_asset call targets. -/
inductive OrderSide
  | buy
  | sell
  deriving DecidableEq, Repr

/-- One send_asset call: side (buy_addr or sell_addr), wallet id, and the
third and fourth positional amounts of the call. -/
structure Order where
  side : OrderSide
  wallet : ℕ
  a3 : ℚ
  a4 : ℚ
  deriving DecidableEq, Repr

/-- External results consumed by one buy_stock call: the ask quote
(get_stock_price_from_dinari index 1) and the send_asset verdict. -/
structure BuyEnv where
  ask : ℚ
  send_ok : Bool
  deriving DecidableEq, Repr

/-- External results consumed by one sell_stock call: the bid quote
(get_stock_price_from_dinari index 0) and the send_asset verdict. -/
structure SellEnv where
  bid : ℚ
  send_ok : Bool
  deriving DecidableEq, Repr

/-- External results consumed by one handle_price_drop call: its own ask
fetch, the (spec-modelled) get_last_trade result, the stop-loss send_asset
verdict, and the environment of the nested DCA buy_stock call. -/
structure DropEnv where
  ask : ℚ
  last_trade : Option TradeRecord
  send_ok : Bool
  buyEnv : BuyEnv
  deriving DecidableEq, Repr

/-- Result of one trader method: the object state, the trades table, the
send_asset calls made (in order), and the exception raised, if any. -/
structure OpResult where
  pos : Position
  trades : List TradeRow
  orders : List Order
  err : Option PyErr
  deriving DecidableEq, Repr

/-- StockTrader.buy_stock (src/stock_trader.py lines 41-64), line by line:
deny-list check, ask fetch with zero-sentinel abort, volume computation,
send_asset with abort on rejection, then the attribute mutations in source
order, and finally the record_trade call, which passes six positional
arguments. -/
def buy_stock (cfg : Config) (p : Position) (trades : List TradeRow)
    (env : BuyEnv) (xch_volume xch_price : ℚ) (now : ℕ) : OpResult :=
  if p.stock ∈ cfg.SELL_ONLY_SYMBOLS then
    { pos := p, trades := trades, orders := [], err := none }
  else if env.ask = 0 then
    { pos := p, trades := trades, orders := [], err := none }
  else
    let volume := xch_volume * xch_price / env.ask
    let order : Order := { side := OrderSide.buy, wallet := 1,
                           a3 := volume, a4 := xch_volume }
    if env.send_ok = false then
      { pos := p, trades := trades, orders := [order], err := none }
    else
      let p1 := { p with volume := p.volume + volume,
                         last_buy_price := env.ask,
                         total_cost := p.total_cost + xch_volume }
      if p1.volume = 0 then
        { pos := p1, trades := trades, orders := [order],
          err := some PyErr.zeroDivisionError }
      else
        let p2 := { p1 with avg_price := p1.total_cost / p1.volume,
                            current_price := env.ask }
        if xch_price = 0 ∨ p2.total_cost = 0 then
          { pos := p2, trades := trades, orders := [order],
            err := some PyErr.zeroDivisionError }
        else
          let p3 := { p2 with
            profit := p2.volume * p2.current_price / xch_price / p2.total_cost - 1,
            position_status := PositionStatus.PENDING_BUY,
            buy_count := p.buy_count + 1,
            last_updated := now }
          match record_trade trades
              [PyVal.str p.stock, PyVal.str "BUY", PyVal.num env.ask,
               PyVal.num volume, PyVal.num xch_volume, PyVal.num 0] with
          | Except.error e =>
              { pos := p3, trades := trades, orders := [order], err := some e }
          | Except.ok trades2 =>
              { pos := p3, trades := trades2, orders := [order], err := none }

/-- StockTrader.sell_stock (src/stock_trader.py lines 66-83): the bid fetch
is assigned to current_price before the zero check; profit is computed by
dividing by total_cost; the order is submitted only when
profit >= MIN_PROFIT or liquid; record_trade (six positional arguments)
runs before PENDING_SELL is set. -/
def sell_stock (cfg : Config) (p : Position) (trades : List TradeRow)
    (env : SellEnv) (xch_price : ℚ) (liquid : Bool) (now : ℕ) : OpResult :=
  let p0 := { p with current_price := env.bid }
  if p0.current_price = 0 then
    { pos := p0, trades := trades, orders := [], err := none }
  else if xch_price = 0 then
    { pos := p0, trades := trades, orders := [],
      err := some PyErr.zeroDivisionError }
  else
    let request_xch := p0.volume * p0.current_price / xch_price
    if p0.total_cost = 0 then
      { pos := p0, trades := trades, orders := [],
        err := some PyErr.zeroDivisionError }
    else
      let p1 := { p0 with profit := request_xch / p0.total_cost - 1 }
      if p1.profit ≥ cfg.MIN_PROFIT ∨ liquid = true then
        let order : Order := { side := OrderSide.sell, wallet := p.wallet_id,
                               a3 := request_xch, a4 := p1.volume }
        if env.send_ok = false then
          { pos := p1, trades := trades, orders := [order], err := none }
        else
          match record_trade trades
              [PyVal.str p.stock, PyVal.str "SELL", PyVal.num p1.current_price,
               PyVal.num p1.volume, PyVal.num p1.total_cost,
               PyVal.num p1.profit] with
          | Except.error e =>
              { pos := p1, trades := trades, orders := [order], err := some e }
          | Except.ok trades2 =>
              { pos := { p1 with position_status := PositionStatus.PENDING_SELL,
                                 last_updated := now },
                trades := trades2, orders := [order], err := none }
      else
        { pos := p1, trades := trades, orders := [], err := none }

/-- StockTrader.handle_price_drop (src/stock_trader.py lines 85-111): ask
fetch assigned to current_price before the zero check; profit recomputed
(dividing by xch_price then total_cost); the get_last_trade result is
subscripted unconditionally ([5] / [4], i.e. amount / volume of the
spec-modelled row) and the drop percentage divides by that implied price;
then the stop-loss branch (buy_count == MAX_BUY_TIMES and
profit < -MAX_LOSS_PERCENTAGE) or, exclusively, the DCA repurchase branch
(drop_percentage >= DCA_PERCENTAGE and buy_count < MAX_BUY_TIMES), which
calls buy_stock with BUY_PERCENTAGE * INVESTED_XCH. -/
def handle_price_drop (cfg : Config) (p : Position) (trades : List TradeRow)
    (env : DropEnv) (xch_price : ℚ) (now : ℕ) : OpResult :=
  let p0 := { p with current_price := env.ask }
  if p0.current_price = 0 then
    { pos := p0, trades := trades, orders := [], err := none }
  else if xch_price = 0 ∨ p0.total_cost = 0 then
    { pos := p0, trades := trades, orders := [],
      err := some PyErr.zeroDivisionError }
  else
    let p1 := { p0 with
      profit := p0.volume * p0.current_price / xch_price / p0.total_cost - 1 }
    match env.last_trade with
    | none =>
        { pos := p1, trades := trades, orders := [],
          err := some PyErr.typeError }
    | some t =>
        if t.volume = 0 then
          { pos := p1, trades := trades, orders := [],
            err := some PyErr.zeroDivisionError }
        else
          let last_price := t.amount / t.volume
          if last_price = 0 then
            { pos := p1, trades := trades, orders := [],
              err := some PyErr.zeroDivisionError }
          else
            let drop_percentage := (last_price - p1.current_price / xch_price) / last_price
            if p1.buy_count = cfg.MAX_BUY_TIMES ∧
                p1.profit < -cfg.MAX_LOSS_PERCENTAGE then
              let request_xch := p1.volume * p1.current_price / xch_price
              let order : Order := { side := OrderSide.sell, wallet := p.wallet_id,
                                     a3 := request_xch, a4 := p1.volume }
              if env.send_ok = false then
                { pos := p1, trades := trades, orders := [order], err := none }
              else
                match record_trade trades
                    [PyVal.str p.stock, PyVal.str "SELL",
                     PyVal.num p1.current_price, PyVal.num p1.volume,
                     PyVal.num p1.total_cost, PyVal.num p1.profit] with
                | Except.error e =>
                    { pos := p1, trades := trades, orders := [order],
                      err := some e }
                | Except.ok trades2 =>
                    { pos := { p1 with
                        position_status := PositionStatus.PENDING_SELL,
                        last_updated := now },
                      trades := trades2, orders := [order], err := none }
            else
              if drop_percentage ≥ cfg.DCA_PERCENTAGE ∧
                  p1.buy_count < cfg.MAX_BUY_TIMES then
                buy_stock cfg p1 trades env.buyEnv
                  (cfg.BUY_PERCENTAGE * cfg.INVESTED_XCH) xch_price now
              else
                { pos := p1, trades := trades, orders := [], err := none }

/-- A row of the `positions` table, columns in the order written by
db.update_position. -/
structure PositionRow where
  stock : String
  buy_count : ℕ
  last_buy_price : ℚ
  volume : ℚ
  total_cost : ℚ
  avg_price : ℚ
  current_price : ℚ
  profit : ℚ
  status : PositionStatus
  last_updated : ℕ
  deriving DecidableEq, Repr

/-- db.update_position: INSERT OR REPLACE into `positions`, keyed by the
stock primary key (a full-row replace). -/
def update_position (store : String → Option PositionRow) (row : PositionRow) :
    String → Option PositionRow :=
  fun s => if s = row.stock then some row else store s

/-- The row update_position writes for a trader: every field of the object
plus datetime.now() as last_updated. -/
def rowOf (p : Position) (now : ℕ) : PositionRow :=
  { stock := p.stock, buy_count := p.buy_count,
    last_buy_price := p.last_buy_price, volume := p.volume,
    total_cost := p.total_cost, avg_price := p.avg_price,
    current_price := p.current_price, profit := p.profit,
    status := p.position_status, last_updated := p.last_updated }

/-- StockTrader.load_position: fields taken from the stored row when one
exists, else a fresh position is created (and inserted). -/
def load_position (stock : String) (now wallet : ℕ)
    (stored : Option PositionRow) : Position :=
  match stored with
  | none => freshPosition stock now wallet
  | some r =>
      { stock := stock, volume := r.volume, buy_count := r.buy_count,
        last_buy_price := r.last_buy_price, total_cost := r.total_cost,
        avg_price := r.avg_price, current_price := r.current_price,
        profit := r.profit, position_status := r.status,
        last_updated := r.last_updated, wallet_id := wallet }

/-- External results consumed when the loop body processes one trader: the
environments of the three possible method calls plus the ask quote fetched
in the market-closed/pending branch. -/
structure TraderEnv where
  buyEnv : BuyEnv
  sellEnv : SellEnv
  dropEnv : DropEnv
  closed_ask : ℚ
  deriving DecidableEq, Repr

/-- Result of the loop body for one trader: final object state, trades
table, whether update_position was reached, and the exception that
propagated, if any (an uncaught exception aborts the whole tick). -/
structure StepResult where
  pos : Position
  trades : List TradeRow
  wrote : Bool
  err : Option PyErr
  deriving DecidableEq, Repr

/-- One iteration of the per-trader for-loop in execute_trading
(src/stock_trader.py lines 125-145): the TRADABLE-and-market-open branch
dispatches to buy_stock (flat), or sell_stock then (if still TRADABLE)
handle_price_drop (holding); the other branch refreshes current_price and,
on the zero sentinel, executes `continue`, skipping update_position; the
status log line divides current_price by xch_price, raising when xch_price
is zero.  open_branch is the market-open dispatch (lines 127-132): buy when
flat, otherwise sell and then, if the status is still TRADABLE,
handle_price_drop; an exception from sell_stock propagates immediately. -/
def open_branch (cfg : Config) (xch_price : ℚ) (now : ℕ) (p : Position)
    (trades : List TradeRow) (env : TraderEnv) : OpResult :=
  if p.volume = 0 then
    buy_stock cfg p trades env.buyEnv
      (cfg.BUY_PERCENTAGE * cfg.INVESTED_XCH) xch_price now
  else if p.volume > 0 then
    let r1 := sell_stock cfg p trades env.sellEnv xch_price false now
    match r1.err with
    | some _ => r1
    | none =>
        if r1.pos.position_status = PositionStatus.TRADABLE then
          let r2 := handle_price_drop cfg r1.pos r1.trades env.dropEnv
            xch_price now
          { r2 with orders := r1.orders ++ r2.orders }
        else r1
  else
    { pos := p, trades := trades, orders := [], err := none }

def process_trader (cfg : Config) (market_open : Bool) (xch_price : ℚ)
    (now : ℕ) (p : Position) (trades : List TradeRow) (env : TraderEnv) :
    StepResult :=
  if p.position_status = PositionStatus.TRADABLE ∧ market_open = true then
    let r := open_branch cfg xch_price now p trades env
    match r.err with
    | some e => { pos := r.pos, trades := r.trades, wrote := false, err := some e }
    | none =>
        if xch_price = 0 then
          { pos := r.pos, trades := r.trades, wrote := false,
            err := some PyErr.zeroDivisionError }
        else
          { pos := r.pos, trades := r.trades, wrote := true, err := none }
  else
    let p0 := { p with current_price := env.closed_ask }
    if p0.current_price = 0 then
      { pos := p0, trades := trades, wrote := false, err := none }
    else if p0.total_cost > 0 then
      if xch_price = 0 then
        { pos := p0, trades := trades, wrote := false,
          err := some PyErr.zeroDivisionError }
      else
        let p1 := { p0 with
          profit := p0.volume * p0.current_price / xch_price / p0.total_cost - 1 }
        { pos := p1, trades := trades, wrote := true, err := none }
    else if xch_price = 0 then
      { pos := p0, trades := trades, wrote := false,
        err := some PyErr.zeroDivisionError }
    else
      { pos := p0, trades := trades, wrote := true, err := none }

/-- Result of the per-trader loop of one tick: the update_position rows
written in order, and the exception that aborted the tick, if any. -/
structure TickResult where
  writes : List PositionRow
  err : Option PyErr
  deriving DecidableEq, Repr

/-- The per-trader for-loop of one tick of execute_trading: each trader is
processed in order by process_trader; an uncaught exception aborts the rest
of the tick. -/
def run_tick (cfg : Config) (market_open : Bool) (xch_price : ℚ) (now : ℕ)
    (traders : List (Position × TraderEnv)) (trades : List TradeRow) :
    TickResult :=
  match traders with
  | [] => { writes := [], err := none }
  | (p, env) :: rest =>
      let r := process_trader cfg market_open xch_price now p trades env
      match r.err with
      | some e => { writes := [], err := some e }
      | none =>
          let w := if r.wrote then [rowOf r.pos now] else []
          let tail := run_tick cfg market_open xch_price now rest r.trades
          { writes := w ++ tail.writes, err := tail.err }

/-- Holds for each kept (upserted) trader of a tick: the trader took the
market-open branch, or its closed-branch quote was not the zero sentinel. -/
def upserted (market_open : Bool) (pe : Position × TraderEnv) : Bool :=
  decide (pe.1.position_status = PositionStatus.TRADABLE ∧ market_open = true) ||
    decide (pe.2.closed_ask ≠ 0)

/-- A configuration with an empty deny-list, 10% minimum profit, 3 maximum
buys, 10% maximum loss, 5% DCA threshold, used for concrete evaluations. -/
def cfg0 : Config :=
  { SELL_ONLY_SYMBOLS := [], MIN_PROFIT := 1/10, MAX_BUY_TIMES := 3,
    MAX_LOSS_PERCENTAGE := 1/10, DCA_PERCENTAGE := 1/20,
    BUY_PERCENTAGE := 1/100, INVESTED_XCH := 1000 }

/-- A concrete holding position: 20 shares at total cost 10, last quoted 5. -/
def pHold : Position :=
  { freshPosition "AAA" 0 1 with volume := 20, total_cost := 10,
                                 current_price := 5 }

/-- Every call that passes six positional arguments to the five-parameter
db.record_trade raises TypeError. -/
theorem record_trade_six (tr : List TradeRow) (a b : String) (q1 q2 q3 q4 : ℚ) :
    record_trade tr
      [PyVal.str a, PyVal.str b, PyVal.num q1, PyVal.num q2,
       PyVal.num q3, PyVal.num q4] = Except.error PyErr.typeError := rfl

/-- A rejected buy order leaves the object, the ledger and the error state
untouched. -/
theorem buy_stock_reject (cfg : Config) (p : Position) (tr : List TradeRow)
    (env : BuyEnv) (fund xch : ℚ) (now : ℕ) (h : env.send_ok = false) :
    (buy_stock cfg p tr env fund xch now).pos = p ∧
    (buy_stock cfg p tr env fund xch now).trades = tr ∧
    (buy_stock cfg p tr env fund xch now).err = none := by
  unfold buy_stock
  split_ifs <;> simp_all

/-- Every send_asset call made by buy_stock targets the buy address. -/
theorem buy_stock_orders_side (cfg : Config) (p : Position) (tr : List TradeRow)
    (env : BuyEnv) (fund xch : ℚ) (now : ℕ) :
    ∀ o ∈ (buy_stock cfg p tr env fund xch now).orders, o.side = OrderSide.buy := by
  intro o ho
  simp only [buy_stock, record_trade_six] at ho
  split_ifs at ho <;> simp_all

/-- When the symbol is not sell-only and the ask is nonzero, buy_stock makes
exactly one send_asset call, to the buy address. -/
theorem buy_stock_orders_eq (cfg : Config) (p : Position) (tr : List TradeRow)
    (env : BuyEnv) (fund xch : ℚ) (now : ℕ)
    (hso : p.stock ∉ cfg.SELL_ONLY_SYMBOLS) (ha : env.ask ≠ 0) :
    (buy_stock cfg p tr env fund xch now).orders =
      [{ side := OrderSide.buy, wallet := 1, a3 := fund * xch / env.ask,
         a4 := fund }] := by
  simp only [buy_stock, record_trade_six]
  split_ifs <;> simp_all

/-- C1: the claim states that record_trade appends one immutable ledger row
carrying symbol, action, fill price, filled quantity, funding-currency
amount and realized profit ratio, and that every accepted buy and sell
stores such a row.  The code cannot: db.record_trade binds five positional
parameters (stock, action, price, volume, profit — the trades table has no
funding-amount column) while both call sites pass six arguments, so every
call raises TypeError and no row is ever stored.  Evaluated at the accepted
buy of the spec scenario (flat position, reference price 100, ask 50,
funding amount 10): the call raises TypeError, the ledger stays empty, and
the exception propagates out of buy_stock. -/
theorem record_trade_arity_bug :
    record_trade []
      [PyVal.str "AAA", PyVal.str "BUY", PyVal.num 50, PyVal.num 20,
       PyVal.num 10, PyVal.num 0] = Except.error PyErr.typeError
    ∧ (buy_stock cfg0 (freshPosition "AAA" 0 1) []
        { ask := 50, send_ok := true } 10 100 0).trades = []
    ∧ (buy_stock cfg0 (freshPosition "AAA" 0 1) []
        { ask := 50, send_ok := true } 10 100 0).err =
          some PyErr.typeError := by
  refine ⟨rfl, ?_, ?_⟩ <;>
    norm_num [buy_stock, cfg0, freshPosition, record_trade_six]

/-- C4: for the flat position with funding increment 10, reference price 100
and accepted ask 50, the attribute mutations match the claim exactly
(quantity 20, totalCost 10, avgPrice 1/2, buyCount 1, status PENDING_BUY),
but the claimed BUY trade row is never stored: the six-argument
record_trade call raises TypeError after the mutations, so the operation
ends with an empty ledger and a propagating exception instead of the
claimed trade row. -/
theorem buy_scenario_bug :
    buy_stock cfg0 (freshPosition "AAA" 0 1) [] { ask := 50, send_ok := true }
        10 100 0 =
      { pos := { stock := "AAA", volume := 20, buy_count := 1,
                 last_buy_price := 50, total_cost := 10, avg_price := 1/2,
                 current_price := 50, profit := 0,
                 position_status := PositionStatus.PENDING_BUY,
                 last_updated := 0, wallet_id := 1 },
        trades := [],
        orders := [{ side := OrderSide.buy, wallet := 1, a3 := 20, a4 := 10 }],
        err := some PyErr.typeError } := by
  norm_num [buy_stock, cfg0, freshPosition, record_trade_six]

/-- C2 counterexample: a sell invocation whose bid fetch returns the zero
sentinel aborts as claimed, but it does mutate the position: current_price
is overwritten with the sentinel 0 before the zero check, so the claim that
no field of the position is mutated is false. -/
theorem abort_mutation_cex :
    (sell_stock cfg0 pHold [] { bid := 0, send_ok := false } 100 false 0).pos
      ≠ pHold := by
  norm_num [sell_stock, pHold, freshPosition]

/-- C2 (amended): on a zero-sentinel price or a gateway rejection the
operation aborts with no trade row appended and no exception, and buy_stock
mutates nothing, but sell_stock and handle_price_drop abort only after
overwriting current_price with the fetched quote (and, once the profit
computation has been reached, recomputing profit); every other field and
the ledger are untouched. -/
theorem abort_paths_touch_only_quote_fields (cfg : Config) (p : Position)
    (tr : List TradeRow) (benv : BuyEnv) (senv : SellEnv) (denv : DropEnv)
    (fund xch : ℚ) (liquid : Bool) (now : ℕ) :
    (benv.ask = 0 →
      buy_stock cfg p tr benv fund xch now =
        { pos := p, trades := tr, orders := [], err := none })
    ∧ (benv.send_ok = false →
        (buy_stock cfg p tr benv fund xch now).pos = p ∧
        (buy_stock cfg p tr benv fund xch now).trades = tr ∧
        (buy_stock cfg p tr benv fund xch now).err = none)
    ∧ (senv.bid = 0 →
        sell_stock cfg p tr senv xch liquid now =
          { pos := { p with current_price := 0 }, trades := tr,
            orders := [], err := none })
    ∧ (senv.send_ok = false → senv.bid ≠ 0 → xch ≠ 0 → p.total_cost ≠ 0 →
        (sell_stock cfg p tr senv xch liquid now).pos =
          { p with current_price := senv.bid,
                   profit := p.volume * senv.bid / xch / p.total_cost - 1 } ∧
        (sell_stock cfg p tr senv xch liquid now).trades = tr ∧
        (sell_stock cfg p tr senv xch liquid now).err = none)
    ∧ (denv.ask = 0 →
        handle_price_drop cfg p tr denv xch now =
          { pos := { p with current_price := 0 }, trades := tr,
            orders := [], err := none })
    ∧ (denv.send_ok = false → denv.buyEnv.send_ok = false → denv.ask ≠ 0 →
        xch ≠ 0 → p.total_cost ≠ 0 →
        ∀ t, denv.last_trade = some t → t.volume ≠ 0 →
          t.amount / t.volume ≠ 0 →
        (handle_price_drop cfg p tr denv xch now).pos =
          { p with current_price := denv.ask,
                   profit := p.volume * denv.ask / xch / p.total_cost - 1 } ∧
        (handle_price_drop cfg p tr denv xch now).trades = tr ∧
        (handle_price_drop cfg p tr denv xch now).err = none) := by
  refine ⟨?_, ?_, ?_, ?_, ?_, ?_⟩
  · intro h
    simp [buy_stock, h]
  · intro h
    exact buy_stock_reject cfg p tr benv fund xch now h
  · intro h
    simp [sell_stock, h]
  · intro hs hb hx ht
    simp only [sell_stock]
    split_ifs <;> simp_all
  · intro h
    simp [handle_price_drop, h]
  · intro hds hbs ha hx ht t hlt htv hlp
    have hbr := buy_stock_reject cfg
      { p with current_price := denv.ask,
               profit := p.volume * denv.ask / xch / p.total_cost - 1 }
      tr denv.buyEnv (cfg.BUY_PERCENTAGE * cfg.INVESTED_XCH) xch now hbs
    simp only [handle_price_drop, hlt]
    split_ifs <;> simp_all

/-- C2 witness: the amended theorem applied at a concrete zero-bid sell:
the abort leaves everything but current_price in place. -/
theorem abort_paths_witness :
    sell_stock cfg0 pHold [] { bid := 0, send_ok := false } 100 false 0 =
      { pos := { pHold with current_price := 0 }, trades := [],
        orders := [], err := none } :=
  (abort_paths_touch_only_quote_fields cfg0 pHold []
    { ask := 0, send_ok := false } { bid := 0, send_ok := false }
    { ask := 0, last_trade := none, send_ok := false,
      buyEnv := { ask := 0, send_ok := false } } 0 100 false 0).2.2.1 rfl

/-- C3 counterexample: a below-threshold, non-forced sell (20 shares at cost
10, bid 50, reference price 100, profit 0 below the 10% threshold) submits
no order as claimed, but it does not leave the position state untouched:
current_price is refreshed to the fetched bid, so the claim is false. -/
theorem sell_below_threshold_cex :
    (sell_stock cfg0 pHold [] { bid := 50, send_ok := true } 100 false 0).orders
      = []
    ∧ (sell_stock cfg0 pHold [] { bid := 50, send_ok := true } 100 false 0).pos
      ≠ pHold := by
  constructor <;> norm_num [sell_stock, pHold, freshPosition, cfg0]

/-- C3 (amended): for a position with holdings > 0, nonzero fetched bid,
nonzero reference price and nonzero totalCost, sell computes
proceeds = holdings * bidPrice / referencePrice and
profit = proceeds / totalCost - 1, and submits a sell order if and only if
profit >= MIN_PROFIT or liquidation is forced; a sell attempt below
threshold and not forced appends no trade row and changes nothing except
the refreshed current_price and the recomputed profit. -/
theorem sell_threshold_gate (cfg : Config) (p : Position) (tr : List TradeRow)
    (senv : SellEnv) (xch : ℚ) (liquid : Bool) (now : ℕ)
    (hv : 0 < p.volume) (hb : senv.bid ≠ 0) (hx : xch ≠ 0)
    (ht : p.total_cost ≠ 0) :
    ((sell_stock cfg p tr senv xch liquid now).pos.current_price = senv.bid)
    ∧ ((sell_stock cfg p tr senv xch liquid now).pos.profit =
        p.volume * senv.bid / xch / p.total_cost - 1)
    ∧ ((sell_stock cfg p tr senv xch liquid now).orders =
        if p.volume * senv.bid / xch / p.total_cost - 1 ≥ cfg.MIN_PROFIT ∨
            liquid = true then
          [{ side := OrderSide.sell, wallet := p.wallet_id,
             a3 := p.volume * senv.bid / xch, a4 := p.volume }]
        else [])
    ∧ (¬(p.volume * senv.bid / xch / p.total_cost - 1 ≥ cfg.MIN_PROFIT ∨
          liquid = true) →
        sell_stock cfg p tr senv xch liquid now =
          { pos := { p with current_price := senv.bid,
                            profit := p.volume * senv.bid / xch / p.total_cost - 1 },
            trades := tr, orders := [], err := none }) := by
  simp only [sell_stock]
  split_ifs <;> simp_all [record_trade_six]

/-- C3 witness: the amended theorem applied at the concrete below-threshold
sell shows the order gate evaluating to no submission. -/
theorem sell_threshold_gate_witness :
    (sell_stock cfg0 pHold [] { bid := 50, send_ok := true } 100 false 0).orders
      = [] := by
  have h := sell_threshold_gate cfg0 pHold [] { bid := 50, send_ok := true }
    100 false 0 (by norm_num [pHold, freshPosition]) (by norm_num)
    (by norm_num) (by norm_num [pHold, freshPosition])
  rw [h.2.2.1]
  norm_num [pHold, freshPosition, cfg0]

/-- buy_stock makes either no send_asset call or exactly the one buy-side
call with the computed share volume and the funding amount. -/
theorem buy_stock_orders_cases (cfg : Config) (p : Position)
    (tr : List TradeRow) (env : BuyEnv) (fund xch : ℚ) (now : ℕ) :
    (buy_stock cfg p tr env fund xch now).orders = [] ∨
    (buy_stock cfg p tr env fund xch now).orders =
      [{ side := OrderSide.buy, wallet := 1, a3 := fund * xch / env.ask,
         a4 := fund }] := by
  simp only [buy_stock, record_trade_six]
  split_ifs <;> simp

/-- C5: within a single handle_price_drop call reaching its branch logic,
a sell-side order is submitted if and only if buyCount equals MAX_BUY_TIMES
and the recomputed profit is below -MAX_LOSS_PERCENTAGE; a buy-side (DCA)
order can only be submitted when the stop-loss condition failed, the drop
percentage is at least DCA_PERCENTAGE and buyCount is strictly below
MAX_BUY_TIMES; hence the two branches never both submit. -/
theorem drawdown_branch_exclusivity (cfg : Config) (p : Position)
    (tr : List TradeRow) (denv : DropEnv) (xch : ℚ) (now : ℕ)
    (t : TradeRecord) (ha : denv.ask ≠ 0) (hx : xch ≠ 0)
    (ht : p.total_cost ≠ 0) (hlt : denv.last_trade = some t)
    (htv : t.volume ≠ 0) (hlp : t.amount / t.volume ≠ 0) :
    ((∃ o ∈ (handle_price_drop cfg p tr denv xch now).orders,
        o.side = OrderSide.sell) ↔
      (p.buy_count = cfg.MAX_BUY_TIMES ∧
        p.volume * denv.ask / xch / p.total_cost - 1 <
          -cfg.MAX_LOSS_PERCENTAGE))
    ∧ ((∃ o ∈ (handle_price_drop cfg p tr denv xch now).orders,
          o.side = OrderSide.buy) →
        ¬(p.buy_count = cfg.MAX_BUY_TIMES ∧
            p.volume * denv.ask / xch / p.total_cost - 1 <
              -cfg.MAX_LOSS_PERCENTAGE) ∧
        (t.amount / t.volume - denv.ask / xch) / (t.amount / t.volume) ≥
          cfg.DCA_PERCENTAGE ∧
        p.buy_count < cfg.MAX_BUY_TIMES)
    ∧ ¬((∃ o ∈ (handle_price_drop cfg p tr denv xch now).orders,
          o.side = OrderSide.sell) ∧
        (∃ o ∈ (handle_price_drop cfg p tr denv xch now).orders,
          o.side = OrderSide.buy)) := by
  simp only [handle_price_drop, hlt]
  split_ifs <;> try simp_all [record_trade_six]
  rename_i hask hstop hdca
  have hs := buy_stock_orders_side cfg
      { p with current_price := denv.ask,
               profit := p.volume * denv.ask / xch / p.total_cost - 1 }
      tr denv.buyEnv (cfg.BUY_PERCENTAGE * cfg.INVESTED_XCH) xch now
  refine ⟨⟨?_, ?_⟩, ?_⟩
  · rintro ⟨o, ho, hos⟩
    have hb := hs o ho
    rw [hos] at hb
    exact absurd hb (by decide)
  · rintro ⟨hbc, -⟩
    exact absurd hbc (Nat.ne_of_lt hdca.2)
  · intro x hx hxs
    have hb := hs x hx
    rw [hxs] at hb
    exact absurd hb (by decide)

/-- C5 witness: a concrete stop-loss firing (buyCount at the maximum, loss
beyond the threshold) submits a sell-side order. -/
theorem drawdown_branch_exclusivity_witness :
    ∃ o ∈ (handle_price_drop cfg0
        { pHold with buy_count := 3, current_price := 5 } []
        { ask := 3, last_trade := some
            { stock := "AAA", action := "BUY", price := 50, volume := 20,
              amount := 10, profit := 0 },
          send_ok := false, buyEnv := { ask := 0, send_ok := false } }
        100 0).orders, o.side = OrderSide.sell := by
  have h := (drawdown_branch_exclusivity cfg0
    { pHold with buy_count := 3, current_price := 5 } []
    { ask := 3, last_trade := some
        { stock := "AAA", action := "BUY", price := 50, volume := 20,
          amount := 10, profit := 0 },
      send_ok := false, buyEnv := { ask := 0, send_ok := false } }
    100 0
    { stock := "AAA", action := "BUY", price := 50, volume := 20,
      amount := 10, profit := 0 }
    (by norm_num) (by norm_num) (by norm_num [pHold, freshPosition]) rfl
    (by norm_num) (by norm_num)).1
  exact h.mpr (by norm_num [pHold, freshPosition, cfg0])

/-- C6: with get_last_trade modelled from the spec, handle_price_drop
derives the implied price of the last trade as the row's funding-currency
amount divided by its filled quantity and tests
(lastPrice - currentAsk / referencePrice) / lastPrice against the DCA
threshold: in a call that reaches the branch logic with the stop-loss
condition false, a repurchase order is submitted exactly when that formula,
written out here, is at least DCA_PERCENTAGE and buyCount is below the
maximum. -/
theorem drawdown_drop_formula (cfg : Config) (p : Position)
    (tr : List TradeRow) (denv : DropEnv) (xch : ℚ) (now : ℕ)
    (t : TradeRecord) (ha : denv.ask ≠ 0) (hx : xch ≠ 0)
    (ht : p.total_cost ≠ 0) (hlt : denv.last_trade = some t)
    (htv : t.volume ≠ 0) (hlp : t.amount / t.volume ≠ 0)
    (hns : ¬(p.buy_count = cfg.MAX_BUY_TIMES ∧
        p.volume * denv.ask / xch / p.total_cost - 1 <
          -cfg.MAX_LOSS_PERCENTAGE))
    (hso : p.stock ∉ cfg.SELL_ONLY_SYMBOLS) (hba : denv.buyEnv.ask ≠ 0) :
    (handle_price_drop cfg p tr denv xch now).orders ≠ [] ↔
      ((t.amount / t.volume - denv.ask / xch) / (t.amount / t.volume) ≥
          cfg.DCA_PERCENTAGE ∧
        p.buy_count < cfg.MAX_BUY_TIMES) := by
  have he := buy_stock_orders_eq cfg
      { p with current_price := denv.ask,
               profit := p.volume * denv.ask / xch / p.total_cost - 1 }
      tr denv.buyEnv (cfg.BUY_PERCENTAGE * cfg.INVESTED_XCH) xch now hso hba
  simp only [handle_price_drop, hlt]
  split_ifs <;> simp_all [record_trade_six]

/-- C6 witness: concrete drawdown (implied last price 10/20, ask 40,
reference price 100, drop 20% at threshold 5%, one prior buy) fires the
repurchase. -/
theorem drawdown_drop_formula_witness :
    (handle_price_drop cfg0 { pHold with buy_count := 1 } []
      { ask := 40, last_trade := some
          { stock := "AAA", action := "BUY", price := 50, volume := 20,
            amount := 10, profit := 0 },
        send_ok := false, buyEnv := { ask := 40, send_ok := false } }
      100 0).orders ≠ [] := by
  refine (drawdown_drop_formula cfg0 { pHold with buy_count := 1 } []
    { ask := 40, last_trade := some
        { stock := "AAA", action := "BUY", price := 50, volume := 20,
          amount := 10, profit := 0 },
      send_ok := false, buyEnv := { ask := 40, send_ok := false } }
    100 0
    { stock := "AAA", action := "BUY", price := 50, volume := 20,
      amount := 10, profit := 0 }
    (by norm_num) (by norm_num) (by norm_num [pHold, freshPosition]) rfl
    (by norm_num) (by norm_num)
    (by norm_num [pHold, freshPosition, cfg0])
    (by norm_num [pHold, freshPosition, cfg0]) (by norm_num)).mpr ?_
  constructor
  · norm_num [cfg0]
  · norm_num [pHold, freshPosition, cfg0]

/-- buy_stock never changes the symbol of the object. -/
theorem buy_stock_pos_stock (cfg : Config) (p : Position) (tr : List TradeRow)
    (env : BuyEnv) (fund xch : ℚ) (now : ℕ) :
    (buy_stock cfg p tr env fund xch now).pos.stock = p.stock := by
  simp only [buy_stock, record_trade_six]
  split_ifs <;> simp

/-- sell_stock never changes the symbol of the object. -/
theorem sell_stock_pos_stock (cfg : Config) (p : Position) (tr : List TradeRow)
    (env : SellEnv) (xch : ℚ) (liquid : Bool) (now : ℕ) :
    (sell_stock cfg p tr env xch liquid now).pos.stock = p.stock := by
  simp only [sell_stock, record_trade_six]
  split_ifs <;> simp

/-- handle_price_drop never changes the symbol of the object. -/
theorem handle_price_drop_pos_stock (cfg : Config) (p : Position)
    (tr : List TradeRow) (env : DropEnv) (xch : ℚ) (now : ℕ) :
    (handle_price_drop cfg p tr env xch now).pos.stock = p.stock := by
  cases hl : env.last_trade with
  | none =>
      simp only [handle_price_drop, hl]
      split_ifs <;> simp
  | some t =>
      simp only [handle_price_drop, hl, record_trade_six]
      split_ifs <;> simp [buy_stock_pos_stock]

/-- open_branch never changes the symbol of the object. -/
theorem open_branch_pos_stock (cfg : Config) (xch : ℚ) (now : ℕ)
    (p : Position) (tr : List TradeRow) (env : TraderEnv) :
    (open_branch cfg xch now p tr env).pos.stock = p.stock := by
  simp only [open_branch]
  cases hre : (sell_stock cfg p tr env.sellEnv xch false now).err with
  | some e =>
      split_ifs <;>
        simp [hre, buy_stock_pos_stock, sell_stock_pos_stock]
  | none =>
      split_ifs <;>
        simp [hre, buy_stock_pos_stock, sell_stock_pos_stock,
              handle_price_drop_pos_stock]

/-- Given that the loop body for one trader did not raise, it reached
update_position exactly when the trader took the market-open branch or its
closed-branch quote was nonzero, and the symbol is unchanged. -/
theorem process_trader_ok (cfg : Config) (mo : Bool) (xch : ℚ) (now : ℕ)
    (p : Position) (tr : List TradeRow) (env : TraderEnv)
    (h : (process_trader cfg mo xch now p tr env).err = none) :
    (process_trader cfg mo xch now p tr env).wrote = upserted mo (p, env) ∧
    (process_trader cfg mo xch now p tr env).pos.stock = p.stock := by
  by_cases hcond : p.position_status = PositionStatus.TRADABLE ∧ mo = true
  · simp only [process_trader, if_pos hcond] at h ⊢
    cases hre : (open_branch cfg xch now p tr env).err with
    | some e => simp [hre] at h
    | none =>
        simp only [hre] at h ⊢
        split_ifs at h ⊢ <;>
          simp_all [upserted, hcond, open_branch_pos_stock]
  · simp only [process_trader, if_neg hcond] at h ⊢
    split_ifs at h ⊢ <;> simp_all [upserted, hcond]

/-- A position whose order is still awaiting confirmation. -/
def pPending : Position :=
  { freshPosition "AAA" 0 1 with position_status := PositionStatus.PENDING_BUY }

/-- A trader environment for the market-closed/pending branch with the given
closed-branch ask quote. -/
def envClosed (ask : ℚ) : TraderEnv :=
  { buyEnv := { ask := 0, send_ok := false },
    sellEnv := { bid := 0, send_ok := false },
    dropEnv := { ask := 0, last_trade := none, send_ok := false,
                 buyEnv := { ask := 0, send_ok := false } },
    closed_ask := ask }

/-- C7 counterexample: a pending position whose quote fetch returns the zero
sentinel is processed by the market-closed/pending branch, which executes
`continue` before update_position: the tick completes without error yet
writes no row at all, refuting "persists the position exactly once" for
that branch. -/
theorem tick_persist_skip_cex :
    (run_tick cfg0 false 100 0 [(pPending, envClosed 0)] []).writes = []
    ∧ (run_tick cfg0 false 100 0 [(pPending, envClosed 0)] []).err = none := by
  constructor <;>
    norm_num [run_tick, process_trader, pPending, envClosed, freshPosition]

/-- C7 (amended): in a tick that raises no exception, the loop persists via
upsert exactly the positions that either took the market-open branch or
whose closed-branch quote was nonzero, each exactly once and in order —
positions in the market-closed/pending branch with a zero quote are skipped
without persistence; and upsert is an idempotent full-row replace keyed by
the symbol. -/
theorem tick_persist_amended (cfg : Config) (mo : Bool) (xch : ℚ) (now : ℕ)
    (traders : List (Position × TraderEnv)) (tr : List TradeRow)
    (store : String → Option PositionRow) (row : PositionRow)
    (hok : (run_tick cfg mo xch now traders tr).err = none) :
    (run_tick cfg mo xch now traders tr).writes.map (fun r => r.stock) =
      (traders.filter (upserted mo)).map (fun pe => pe.1.stock)
    ∧ update_position (update_position store row) row = update_position store row
    ∧ update_position store row row.stock = some row := by
  refine ⟨?_, ?_, ?_⟩
  · induction traders generalizing tr with
    | nil => simp [run_tick]
    | cons pe rest ih =>
        obtain ⟨p, env⟩ := pe
        cases hre : (process_trader cfg mo xch now p tr env).err with
        | some e => simp [run_tick, hre] at hok
        | none =>
            have hspec := process_trader_ok cfg mo xch now p tr env hre
            simp only [run_tick, hre] at hok ⊢
            have htail := ih ((process_trader cfg mo xch now p tr env).trades) hok
            rw [List.map_append, htail, List.filter_cons, ← hspec.1]
            cases hw : (process_trader cfg mo xch now p tr env).wrote <;>
              simp [rowOf, hspec.2, hw]
  · funext s
    simp only [update_position]
    split_ifs <;> rfl
  · simp [update_position]

/-- C7 witness: the amended theorem applied to a one-trader tick in the
closed branch with a nonzero quote: exactly one upsert, carrying the
trader's symbol, and the concrete store obeys the replace semantics. -/
theorem tick_persist_witness :
    (run_tick cfg0 false 100 0 [(pPending, envClosed 7)] []).writes.map
        (fun r => r.stock) = ["AAA"]
    ∧ update_position (update_position (fun _ => none) (rowOf pHold 0))
        (rowOf pHold 0) = update_position (fun _ => none) (rowOf pHold 0)
    ∧ update_position (fun _ => none) (rowOf pHold 0) (rowOf pHold 0).stock =
        some (rowOf pHold 0) := by
  have h := tick_persist_amended cfg0 false 100 0 [(pPending, envClosed 7)] []
    (fun _ => none) (rowOf pHold 0)
    (by norm_num [run_tick, process_trader, pPending, envClosed, freshPosition])
  refine ⟨?_, h.2.1, h.2.2⟩
  rw [h.1]
  norm_num [upserted, pPending, envClosed, freshPosition]

/-- sell_stock never touches holdings or cost basis on any path. -/
theorem sell_stock_vc (cfg : Config) (p : Position) (tr : List TradeRow)
    (env : SellEnv) (xch : ℚ) (liquid : Bool) (now : ℕ) :
    (sell_stock cfg p tr env xch liquid now).pos.volume = p.volume ∧
    (sell_stock cfg p tr env xch liquid now).pos.total_cost = p.total_cost := by
  simp only [sell_stock, record_trade_six]
  split_ifs <;> simp

/-- buy_stock preserves the invariant volume = 0 → total_cost = 0 under the
gateway contract (non-negative quotes, positive reference price,
non-negative funding amount). -/
theorem buy_stock_inv (cfg : Config) (p : Position) (tr : List TradeRow)
    (env : BuyEnv) (fund xch : ℚ) (now : ℕ)
    (hInv : p.volume = 0 → p.total_cost = 0) (hvol : 0 ≤ p.volume)
    (hx : 0 < xch) (hf : 0 ≤ fund) (ha : 0 ≤ env.ask) :
    (buy_stock cfg p tr env fund xch now).pos.volume = 0 →
    (buy_stock cfg p tr env fund xch now).pos.total_cost = 0 := by
  simp only [buy_stock, record_trade_six]
  split_ifs with h1 h2 h3 h4 h5
  · exact hInv
  · exact hInv
  · exact hInv
  · intro _
    have h4' : p.volume + fund * xch / env.ask = 0 := h4
    have hask : 0 < env.ask := lt_of_le_of_ne ha (Ne.symm h2)
    have hvnn : 0 ≤ fund * xch / env.ask :=
      div_nonneg (mul_nonneg hf hx.le) hask.le
    have hpv : p.volume = 0 := by linarith
    have hvz : fund * xch / env.ask = 0 := by linarith
    have hfx : fund * xch = 0 := by
      rcases div_eq_zero_iff.mp hvz with h | h
      · exact h
      · exact absurd h h2
    have hf0 : fund = 0 := by
      rcases mul_eq_zero.mp hfx with h | h
      · exact h
      · exact absurd h (ne_of_gt hx)
    simp [hInv hpv, hf0]
  · intro habs
    exact absurd habs h4
  · intro habs
    exact absurd habs h4

/-- handle_price_drop preserves the invariant volume = 0 → total_cost = 0:
every path except the DCA repurchase leaves both fields unchanged, and the
DCA path goes through buy_stock. -/
theorem handle_price_drop_inv (cfg : Config) (p : Position)
    (tr : List TradeRow) (env : DropEnv) (xch : ℚ) (now : ℕ)
    (hInv : p.volume = 0 → p.total_cost = 0) (hvol : 0 ≤ p.volume)
    (hx : 0 < xch) (hcfg : 0 ≤ cfg.BUY_PERCENTAGE * cfg.INVESTED_XCH)
    (ha : 0 ≤ env.buyEnv.ask) :
    (handle_price_drop cfg p tr env xch now).pos.volume = 0 →
    (handle_price_drop cfg p tr env xch now).pos.total_cost = 0 := by
  cases hl : env.last_trade with
  | none =>
      simp only [handle_price_drop, hl]
      split_ifs <;> exact hInv
  | some t =>
      simp only [handle_price_drop, hl, record_trade_six]
      split_ifs <;>
        first
          | exact hInv
          | exact buy_stock_inv cfg _ tr env.buyEnv _ xch now hInv hvol hx
              hcfg ha

/-- C8: the invariant holdings = 0 → totalCost = 0 holds for a freshly
constructed position and is preserved by buy_stock, sell_stock and
handle_price_drop whatever their outcome (including paths that end in an
exception), under the gateway contract that quotes are non-negative, the
reference price is positive and funding amounts are non-negative. -/
theorem flat_zero_cost_invariant (cfg : Config) (s : String) (w now : ℕ)
    (p : Position) (tr : List TradeRow) (benv : BuyEnv) (senv : SellEnv)
    (denv : DropEnv) (fund xch : ℚ) (liquid : Bool)
    (hInv : p.volume = 0 → p.total_cost = 0) (hvol : 0 ≤ p.volume)
    (hx : 0 < xch) (hf : 0 ≤ fund) (hba : 0 ≤ benv.ask)
    (hda : 0 ≤ denv.buyEnv.ask)
    (hcfg : 0 ≤ cfg.BUY_PERCENTAGE * cfg.INVESTED_XCH) :
    ((freshPosition s now w).volume = 0 →
      (freshPosition s now w).total_cost = 0)
    ∧ ((buy_stock cfg p tr benv fund xch now).pos.volume = 0 →
        (buy_stock cfg p tr benv fund xch now).pos.total_cost = 0)
    ∧ ((sell_stock cfg p tr senv xch liquid now).pos.volume = 0 →
        (sell_stock cfg p tr senv xch liquid now).pos.total_cost = 0)
    ∧ ((handle_price_drop cfg p tr denv xch now).pos.volume = 0 →
        (handle_price_drop cfg p tr denv xch now).pos.total_cost = 0) := by
  refine ⟨fun _ => rfl,
    buy_stock_inv cfg p tr benv fund xch now hInv hvol hx hf hba, ?_,
    handle_price_drop_inv cfg p tr denv xch now hInv hvol hx hcfg hda⟩
  intro h
  have hvc := sell_stock_vc cfg p tr senv xch liquid now
  rw [hvc.1] at h
  rw [hvc.2]
  exact hInv h

/-- C8 witness: the invariant theorem applied to a fresh position with the
accepted scenario buy, a rejected sell and a no-op drawdown environment. -/
theorem flat_invariant_witness :
    ((freshPosition "AAA" 0 1).volume = 0 →
      (freshPosition "AAA" 0 1).total_cost = 0)
    ∧ ((buy_stock cfg0 (freshPosition "AAA" 0 1) []
          { ask := 50, send_ok := true } 10 100 0).pos.volume = 0 →
        (buy_stock cfg0 (freshPosition "AAA" 0 1) []
          { ask := 50, send_ok := true } 10 100 0).pos.total_cost = 0)
    ∧ ((sell_stock cfg0 (freshPosition "AAA" 0 1) []
          { bid := 0, send_ok := false } 100 false 0).pos.volume = 0 →
        (sell_stock cfg0 (freshPosition "AAA" 0 1) []
          { bid := 0, send_ok := false } 100 false 0).pos.total_cost = 0)
    ∧ ((handle_price_drop cfg0 (freshPosition "AAA" 0 1) []
          { ask := 0, last_trade := none, send_ok := false,
            buyEnv := { ask := 0, send_ok := false } } 100 0).pos.volume = 0 →
        (handle_price_drop cfg0 (freshPosition "AAA" 0 1) []
          { ask := 0, last_trade := none, send_ok := false,
            buyEnv := { ask := 0, send_ok := false } } 100 0).pos.total_cost
          = 0) :=
  flat_zero_cost_invariant cfg0 "AAA" 1 0 (freshPosition "AAA" 0 1) []
    { ask := 50, send_ok := true } { bid := 0, send_ok := false }
    { ask := 0, last_trade := none, send_ok := false,
      buyEnv := { ask := 0, send_ok := false } }
    10 100 false (fun _ => rfl) (le_refl 0) (by norm_num) (by norm_num)
    (by norm_num) (by norm_num) (by norm_num [cfg0])

/-- C9: sell_stock divides the proceeds by total_cost with no guard: for
every position with holdings > 0 but totalCost = 0 and a nonzero bid and
reference price, the profit computation raises ZeroDivisionError instead of
aborting softly — and the trading loop dispatches exactly such positions to
sell_stock whenever the market is open, the status is TRADABLE and
holdings > 0, so the whole tick dies with the same error. -/
theorem sell_zero_cost_div_error (cfg : Config) (p : Position)
    (tr : List TradeRow) (senv : SellEnv) (xch : ℚ) (liquid : Bool) (now : ℕ)
    (env : TraderEnv)
    (hv : 0 < p.volume) (ht : p.total_cost = 0) (hb : senv.bid ≠ 0)
    (hx : xch ≠ 0) :
    (sell_stock cfg p tr senv xch liquid now).err =
      some PyErr.zeroDivisionError
    ∧ (p.position_status = PositionStatus.TRADABLE → env.sellEnv = senv →
        (process_trader cfg true xch now p tr env).err =
          some PyErr.zeroDivisionError) := by
  have h1 : ∀ lq : Bool, (sell_stock cfg p tr senv xch lq now).err =
      some PyErr.zeroDivisionError := by
    intro lq
    simp only [sell_stock]
    split_ifs <;> simp_all
  refine ⟨h1 liquid, fun hst hse => ?_⟩
  have hv0 : ¬p.volume = 0 := ne_of_gt hv
  simp [process_trader, open_branch, hst, hse, hv0, hv, h1 false]

/-- C9 witness: a stored record can present holdings 5 and totalCost 0, and
selling it raises ZeroDivisionError. -/
theorem sell_zero_cost_div_error_witness :
    (sell_stock cfg0 { freshPosition "AAA" 0 1 with volume := 5 } []
      { bid := 50, send_ok := true } 100 false 0).err =
        some PyErr.zeroDivisionError :=
  (sell_zero_cost_div_error cfg0 { freshPosition "AAA" 0 1 with volume := 5 }
    [] { bid := 50, send_ok := true } 100 false 0 (envClosed 0)
    (by norm_num [freshPosition]) (by norm_num [freshPosition]) (by norm_num)
    (by norm_num)).1

/-- C10: handle_price_drop subscripts the get_last_trade result and divides
by the derived last price unconditionally: in any call that reaches the
lookup (nonzero ask, reference price and totalCost), an absent last trade
raises TypeError (None is subscripted) and a last trade whose implied price
amount / volume is zero raises ZeroDivisionError, instead of a soft abort;
a prior trade row with nonzero implied price is a precondition. -/
theorem drawdown_lookup_failure (cfg : Config) (p : Position)
    (tr : List TradeRow) (denv : DropEnv) (xch : ℚ) (now : ℕ)
    (ha : denv.ask ≠ 0) (hx : xch ≠ 0) (ht : p.total_cost ≠ 0) :
    (denv.last_trade = none →
      (handle_price_drop cfg p tr denv xch now).err = some PyErr.typeError)
    ∧ (∀ t, denv.last_trade = some t → t.amount / t.volume = 0 →
        (handle_price_drop cfg p tr denv xch now).err =
          some PyErr.zeroDivisionError) := by
  constructor
  · intro h
    simp only [handle_price_drop, h]
    split_ifs <;> simp_all
  · intro t h hz
    simp only [handle_price_drop, h]
    split_ifs <;> simp_all

/-- C10 witness: the failure theorem applied at a concrete call with an
empty trade ledger for the symbol: the lookup returns no row and the
operation raises TypeError. -/
theorem drawdown_lookup_failure_witness :
    (handle_price_drop cfg0 pHold []
      { ask := 40, last_trade := none, send_ok := false,
        buyEnv := { ask := 0, send_ok := false } } 100 0).err =
      some PyErr.typeError :=
  (drawdown_lookup_failure cfg0 pHold []
    { ask := 40, last_trade := none, send_ok := false,
      buyEnv := { ask := 0, send_ok := false } } 100 0
    (by norm_num) (by norm_num) (by norm_num [pHold, freshPosition])).1 rfl
